import Mathlib

/-!
# Response envelope of `response.go`

A shallow embedding of the Go package `response` (a JSON envelope for gin
handlers and one helper per HTTP status) together with the properties of its
specification.

Modelling decisions.

* Go `int` is `Int`; no arithmetic is performed on codes, so no wrap-around
  can occur.
* Go `any` is `Option α`: `none` is the nil interface, `some v` an interface
  holding the dynamic value `v`. The payload type `α` stays a parameter.
* `json.Marshal` is taken relative to an encoder `enc : α → Option JValue` of
  the dynamic values, which may give null (a nil pointer, slice or map) or
  fail (a channel). `GoValue` with `encodeValue` is one such payload type.
* `*Response` receivers that mutate and return the receiver become functions
  returning the updated record.
* `*gin.Context` is reached only through `c.JSON(code, obj)`. The helpers are
  therefore written against a `Sink` offering exactly that method. Two sinks
  are given: `recorder`, which logs the arguments of every call, and
  `ginSink`, which follows gin's `Context.Render`.
-/

namespace response

/-! ## Constants of `net/http` used by the source -/

def StatusOK : Int := 200
def StatusCreated : Int := 201
def StatusNoContent : Int := 204
def StatusNotModified : Int := 304
def StatusBadRequest : Int := 400
def StatusUnauthorized : Int := 401
def StatusForbidden : Int := 403
def StatusNotFound : Int := 404
def StatusConflict : Int := 409
def StatusUnprocessableEntity : Int := 422
def StatusInternalServerError : Int := 500
def StatusBadGateway : Int := 502
def StatusServiceUnavailable : Int := 503

/-- Reason phrases of `http.StatusText` (Go standard library, `net/http`), the
function `msg` falls back to. Codes outside the table give the empty string. -/
def StatusText (code : Int) : String :=
  if code = 100 then "Continue"
  else if code = 101 then "Switching Protocols"
  else if code = 102 then "Processing"
  else if code = 103 then "Early Hints"
  else if code = 200 then "OK"
  else if code = 201 then "Created"
  else if code = 202 then "Accepted"
  else if code = 203 then "Non-Authoritative Information"
  else if code = 204 then "No Content"
  else if code = 205 then "Reset Content"
  else if code = 206 then "Partial Content"
  else if code = 207 then "Multi-Status"
  else if code = 208 then "Already Reported"
  else if code = 226 then "IM Used"
  else if code = 300 then "Multiple Choices"
  else if code = 301 then "Moved Permanently"
  else if code = 302 then "Found"
  else if code = 303 then "See Other"
  else if code = 304 then "Not Modified"
  else if code = 305 then "Use Proxy"
  else if code = 307 then "Temporary Redirect"
  else if code = 308 then "Permanent Redirect"
  else if code = 400 then "Bad Request"
  else if code = 401 then "Unauthorized"
  else if code = 402 then "Payment Required"
  else if code = 403 then "Forbidden"
  else if code = 404 then "Not Found"
  else if code = 405 then "Method Not Allowed"
  else if code = 406 then "Not Acceptable"
  else if code = 407 then "Proxy Authentication Required"
  else if code = 408 then "Request Timeout"
  else if code = 409 then "Conflict"
  else if code = 410 then "Gone"
  else if code = 411 then "Length Required"
  else if code = 412 then "Precondition Failed"
  else if code = 413 then "Request Entity Too Large"
  else if code = 414 then "Request URI Too Long"
  else if code = 415 then "Unsupported Media Type"
  else if code = 416 then "Requested Range Not Satisfiable"
  else if code = 417 then "Expectation Failed"
  else if code = 418 then "I\x27m a teapot"
  else if code = 421 then "Misdirected Request"
  else if code = 422 then "Unprocessable Entity"
  else if code = 423 then "Locked"
  else if code = 424 then "Failed Dependency"
  else if code = 425 then "Too Early"
  else if code = 426 then "Upgrade Required"
  else if code = 428 then "Precondition Required"
  else if code = 429 then "Too Many Requests"
  else if code = 431 then "Request Header Fields Too Large"
  else if code = 451 then "Unavailable For Legal Reasons"
  else if code = 500 then "Internal Server Error"
  else if code = 501 then "Not Implemented"
  else if code = 502 then "Bad Gateway"
  else if code = 503 then "Service Unavailable"
  else if code = 504 then "Gateway Timeout"
  else if code = 505 then "HTTP Version Not Supported"
  else if code = 506 then "Variant Also Negotiates"
  else if code = 507 then "Insufficient Storage"
  else if code = 508 then "Loop Detected"
  else if code = 510 then "Not Extended"
  else if code = 511 then "Network Authentication Required"
  else ""

/-! ## The envelope (`type Response struct`) -/

/-- Envelope `Response` of the source. `Error` and `Data` have Go type `any`:
`none` is the nil interface. -/
structure Response (α : Type) where
  Code : Int
  Success : Bool
  Message : String
  Error : Option α
  Data : Option α

/-- Constructor `New`: code 200, success, message OK, `Data` nil; `Error` is
left at its zero value, the nil interface. -/
def New {α : Type} : Response α :=
  { Code := StatusOK, Success := true, Message := "OK", Error := none, Data := none }

/-- Method `WithCode`: `r.Code = code; return r`. -/
def Response.WithCode {α : Type} (r : Response α) (code : Int) : Response α :=
  { r with Code := code }

/-- Method `WithSuccess`: `r.Success = success; return r`. -/
def Response.WithSuccess {α : Type} (r : Response α) (success : Bool) : Response α :=
  { r with Success := success }

/-- Method `WithMessage`: `r.Message = message; return r`. -/
def Response.WithMessage {α : Type} (r : Response α) (message : String) : Response α :=
  { r with Message := message }

/-- Method `WithData`: `r.Data = data; return r`. -/
def Response.WithData {α : Type} (r : Response α) (data : Option α) : Response α :=
  { r with Data := data }

/-- Method `WithError`: `r.Error = error; return r`. -/
def Response.WithError {α : Type} (r : Response α) (error : Option α) : Response α :=
  { r with Error := error }

/-- Function `msg`: the caller's message unless it is empty, else the reason
phrase of the code. -/
def msg (message : String) (code : Int) : String :=
  if message ≠ "" then message else StatusText code

/-- Function `Ok`: `New().WithSuccess(true).WithCode(code).WithMessage(msg(message, code))`. -/
def Ok {α : Type} (code : Int) (message : String) : Response α :=
  ((New.WithSuccess true).WithCode code).WithMessage (msg message code)

/-- Function `Err`: `New().WithSuccess(false).WithCode(code).WithMessage(msg(message, code))`. -/
def Err {α : Type} (code : Int) (message : String) : Response α :=
  ((New.WithSuccess false).WithCode code).WithMessage (msg message code)

/-! ## The response sink and the status helpers -/

/-- The one capability of `*gin.Context` the source uses: `c.JSON(code, obj)`,
as a transition of the sink state `σ`. -/
structure Sink (σ α : Type) where
  JSON : σ → Int → Response α → σ

/-- Helper `Success`. -/
def Success {σ α : Type} (S : Sink σ α) (c : σ) (message : String) (data : Option α) : σ :=
  S.JSON c StatusOK ((Ok StatusOK message).WithData data)

/-- Helper `Created`. -/
def Created {σ α : Type} (S : Sink σ α) (c : σ) (message : String) (data : Option α) : σ :=
  S.JSON c StatusCreated ((Ok StatusCreated message).WithData data)

/-- Helper `NoContent`. -/
def NoContent {σ α : Type} (S : Sink σ α) (c : σ) (message : String) : σ :=
  S.JSON c StatusNoContent (Ok StatusNoContent message)

/-- Helper `BadRequest`; the source passes `http.StatusBadGateway` twice. -/
def BadRequest {σ α : Type} (S : Sink σ α) (c : σ) (message : String)
    (error : Option α) (data : Option α) : σ :=
  S.JSON c StatusBadGateway (((Err StatusBadGateway message).WithError error).WithData data)

/-- Helper `Unauthorized`. -/
def Unauthorized {σ α : Type} (S : Sink σ α) (c : σ) (message : String) (data : Option α) : σ :=
  S.JSON c StatusUnauthorized ((Err StatusUnauthorized message).WithData data)

/-- Helper `Forbidden`. -/
def Forbidden {σ α : Type} (S : Sink σ α) (c : σ) (message : String) (data : Option α) : σ :=
  S.JSON c StatusForbidden ((Err StatusForbidden message).WithData data)

/-- Helper `NotFound`. -/
def NotFound {σ α : Type} (S : Sink σ α) (c : σ) (message : String) (data : Option α) : σ :=
  S.JSON c StatusNotFound ((Err StatusNotFound message).WithData data)

/-- Helper `Conflict`. -/
def Conflict {σ α : Type} (S : Sink σ α) (c : σ) (message : String) (data : Option α) : σ :=
  S.JSON c StatusConflict ((Err StatusConflict message).WithData data)

/-- Helper `UnprocessableEntity`. -/
def UnprocessableEntity {σ α : Type} (S : Sink σ α) (c : σ) (message : String)
    (error : Option α) (data : Option α) : σ :=
  S.JSON c StatusUnprocessableEntity
    (((Err StatusUnprocessableEntity message).WithError error).WithData data)

/-- Helper `ServiceUnavailable`. -/
def ServiceUnavailable {σ α : Type} (S : Sink σ α) (c : σ) (message : String)
    (error : Option α) (data : Option α) : σ :=
  S.JSON c StatusServiceUnavailable
    (((Err StatusServiceUnavailable message).WithError error).WithData data)

/-- Helper `InternalServerError`. -/
def InternalServerError {σ α : Type} (S : Sink σ α) (c : σ) (message : String)
    (error : Option α) (data : Option α) : σ :=
  S.JSON c StatusInternalServerError
    (((Err StatusInternalServerError message).WithError error).WithData data)

/-! ## Sinks -/

/-- One call `c.JSON(status, obj)` as seen by the sink. -/
structure SinkCall (α : Type) where
  status : Int
  obj : Response α

/-- The recording sink: its state is the log of the calls made so far. -/
def recorder {α : Type} : Sink (List (SinkCall α)) α :=
  { JSON := fun log code obj => log ++ [{ status := code, obj := obj }] }

/-- The sink state `log2` extends `log1` by exactly one call, and that call
satisfies `P`. -/
def WritesOne {α : Type} (log1 log2 : List (SinkCall α)) (P : SinkCall α → Prop) : Prop :=
  ∃ w, log2 = log1 ++ [w] ∧ P w

/-! ## Serialisation (`encoding/json` on the struct tags of `Response`) -/

/-- JSON values. -/
inductive JValue where
  | null : JValue
  | num (n : Int) : JValue
  | bool (b : Bool) : JValue
  | str (s : String) : JValue
  | arr (items : List JValue) : JValue
  | obj (members : List (String × JValue)) : JValue

/-- A JSON object: its members in order of emission. -/
abbrev JObject := List (String × JValue)

/-- Field of interface type tagged `omitempty`. The member is left out
exactly when the interface is nil. A non-nil interface is encoded by `enc`,
the encoder of the dynamic values, whatever it holds; when `enc` fails the
field fails. -/
def omitempty {α : Type} (enc : α → Option JValue) (key : String) (v : Option α) :
    Option JObject :=
  match v with
  | none => some []
  | some x =>
    match enc x with
    | some j => some [(key, j)]
    | none => none

/-- Result of `json.Marshal` on a `Response`, following its struct tags:
`code`, `success`, `message`, then `error,omitempty` and `data,omitempty`.
It fails when the encoding of a payload fails. -/
def Marshal {α : Type} (enc : α → Option JValue) (r : Response α) : Option JObject :=
  match omitempty enc "error" r.Error, omitempty enc "data" r.Data with
  | some e, some d =>
    some ([("code", JValue.num r.Code), ("success", JValue.bool r.Success),
      ("message", JValue.str r.Message)] ++ e ++ d)
  | _, _ => none

/-- Some dynamic values a Go interface can hold, enough to separate the cases
of `encoding/json`: nil pointers, slices and maps (held by a non-nil
interface), scalars, and a channel, which has no JSON encoding. -/
inductive GoValue where
  | nilPointer : GoValue
  | nilSlice : GoValue
  | nilMap : GoValue
  | bool (b : Bool) : GoValue
  | int (n : Int) : GoValue
  | string (s : String) : GoValue
  | chan : GoValue

/-- Encoding of a `GoValue` by `encoding/json`: nil pointers, slices and maps
give null, scalars their JSON value, a channel an error. -/
def encodeValue : GoValue → Option JValue
  | GoValue.nilPointer => some JValue.null
  | GoValue.nilSlice => some JValue.null
  | GoValue.nilMap => some JValue.null
  | GoValue.bool b => some (JValue.bool b)
  | GoValue.int n => some (JValue.num n)
  | GoValue.string s => some (JValue.str s)
  | GoValue.chan => none

/-! ## The gin sink

`c.JSON(code, obj)` of gin is `c.Render(code, render.JSON{Data: obj})`.
`Render` sets the status, and renders the body only when
`bodyAllowedForStatus(code)` holds (gin, `context.go`). -/

/-- State of gin's response writer: the status, whether the header has been
written, and the JSON documents written to the body. -/
structure ResponseWriter where
  status : Int
  written : Bool
  body : List JObject

/-- Writer of a request nothing has been written to: gin's default status 200. -/
def freshWriter : ResponseWriter :=
  { status := StatusOK, written := false, body := [] }

/-- Function `bodyAllowedForStatus` of gin: no body for 1xx, 204 and 304. -/
def bodyAllowedForStatus (status : Int) : Bool :=
  if 100 ≤ status ∧ status ≤ 199 then false
  else if status = StatusNoContent then false
  else if status = StatusNotModified then false
  else true

/-- Method `WriteHeader` of gin's writer: a positive, different code replaces
the status unless the header is already written. -/
def ResponseWriter.WriteHeader (w : ResponseWriter) (code : Int) : ResponseWriter :=
  if 0 < code ∧ w.status ≠ code then
    if w.written then w else { w with status := code }
  else w

/-- Method `WriteHeaderNow` of gin's writer. -/
def ResponseWriter.WriteHeaderNow (w : ResponseWriter) : ResponseWriter :=
  { w with written := true }

/-- Method `Write` of gin's writer, on one rendered document. -/
def ResponseWriter.Write (w : ResponseWriter) (doc : JObject) : ResponseWriter :=
  { w.WriteHeaderNow with body := w.body ++ [doc] }

/-- Method `Context.Render` of gin, for the JSON renderer with payload encoder
`enc`. When the status allows no body only the header is written. When
marshalling fails nothing is written: the status stays set and the error goes
to the context. -/
def Render {α : Type} (enc : α → Option JValue) (w : ResponseWriter) (code : Int)
    (obj : Response α) : ResponseWriter :=
  if bodyAllowedForStatus code then
    match Marshal enc obj with
    | some doc => (w.WriteHeader code).Write doc
    | none => w.WriteHeader code
  else (w.WriteHeader code).WriteHeaderNow

/-- The gin sink: `c.JSON` is `Render`. -/
def ginSink {α : Type} (enc : α → Option JValue) : Sink ResponseWriter α :=
  { JSON := Render enc }

/-! ## Basic facts -/

theorem msg_of_ne_empty (message : String) (code : Int) (h : message ≠ "") :
    msg message code = message := by
  simp [msg, h]

theorem msg_empty (code : Int) : msg "" code = StatusText code := by
  simp [msg]

theorem Ok_eq {α : Type} (code : Int) (message : String) :
    (Ok code message : Response α) =
      { Code := code, Success := true, Message := msg message code,
        Error := none, Data := none } := rfl

theorem Err_eq {α : Type} (code : Int) (message : String) :
    (Err code message : Response α) =
      { Code := code, Success := false, Message := msg message code,
        Error := none, Data := none } := rfl

theorem writesOne_recorder {α : Type} (log : List (SinkCall α)) (code : Int)
    (obj : Response α) (P : SinkCall α → Prop) (h : P { status := code, obj := obj }) :
    WritesOne log (recorder.JSON log code obj) P :=
  ⟨{ status := code, obj := obj }, rfl, h⟩

/-! ## Statuses written by the helpers -/

/-- Claim C1 (documented statuses): fails for `BadRequest`, whose doc comment
names HTTP status 400. At the input `BadRequest(c, "bad input", nil, nil)` the
recording sink receives one call, with status 502 and an envelope of code 502,
and 502 is not `http.StatusBadRequest`. -/
theorem BadRequest_documented_400_sends_502 :
    BadRequest recorder ([] : List (SinkCall String)) "bad input" none none
        = [{ status := 502,
             obj := { Code := 502, Success := false, Message := "bad input",
                      Error := none, Data := none } }]
      ∧ (502 : Int) ≠ StatusBadRequest := by
  refine ⟨?_, by decide⟩
  simp [BadRequest, recorder, Err_eq, Response.WithError, Response.WithData, msg,
    StatusBadGateway]

/-- Claim C2 (code mirrors status): for each of the eleven helpers and all
arguments, the call reaching the sink carries an envelope whose `Code` equals
the status passed in that same call. -/
theorem envelope_code_eq_status {α : Type} (log : List (SinkCall α)) (message : String)
    (error data : Option α) :
    WritesOne log (Success recorder log message data) (fun w => w.obj.Code = w.status)
    ∧ WritesOne log (Created recorder log message data) (fun w => w.obj.Code = w.status)
    ∧ WritesOne log (NoContent recorder log message) (fun w => w.obj.Code = w.status)
    ∧ WritesOne log (BadRequest recorder log message error data)
        (fun w => w.obj.Code = w.status)
    ∧ WritesOne log (Unauthorized recorder log message data)
        (fun w => w.obj.Code = w.status)
    ∧ WritesOne log (Forbidden recorder log message data) (fun w => w.obj.Code = w.status)
    ∧ WritesOne log (NotFound recorder log message data) (fun w => w.obj.Code = w.status)
    ∧ WritesOne log (Conflict recorder log message data) (fun w => w.obj.Code = w.status)
    ∧ WritesOne log (UnprocessableEntity recorder log message error data)
        (fun w => w.obj.Code = w.status)
    ∧ WritesOne log (ServiceUnavailable recorder log message error data)
        (fun w => w.obj.Code = w.status)
    ∧ WritesOne log (InternalServerError recorder log message error data)
        (fun w => w.obj.Code = w.status) := by
  refine ⟨?_, ?_, ?_, ?_, ?_, ?_, ?_, ?_, ?_, ?_, ?_⟩ <;>
    exact writesOne_recorder _ _ _ _ rfl

/-- Claim C3 (success flag by family): for all arguments, the envelope written
by `Success`, `Created` and `NoContent` has `Success = true`, and the envelope
written by each of the eight error helpers has `Success = false`. -/
theorem success_flag_by_helper {α : Type} (log : List (SinkCall α)) (message : String)
    (error data : Option α) :
    WritesOne log (Success recorder log message data) (fun w => w.obj.Success = true)
    ∧ WritesOne log (Created recorder log message data) (fun w => w.obj.Success = true)
    ∧ WritesOne log (NoContent recorder log message) (fun w => w.obj.Success = true)
    ∧ WritesOne log (BadRequest recorder log message error data)
        (fun w => w.obj.Success = false)
    ∧ WritesOne log (Unauthorized recorder log message data)
        (fun w => w.obj.Success = false)
    ∧ WritesOne log (Forbidden recorder log message data) (fun w => w.obj.Success = false)
    ∧ WritesOne log (NotFound recorder log message data) (fun w => w.obj.Success = false)
    ∧ WritesOne log (Conflict recorder log message data) (fun w => w.obj.Success = false)
    ∧ WritesOne log (UnprocessableEntity recorder log message error data)
        (fun w => w.obj.Success = false)
    ∧ WritesOne log (ServiceUnavailable recorder log message error data)
        (fun w => w.obj.Success = false)
    ∧ WritesOne log (InternalServerError recorder log message error data)
        (fun w => w.obj.Success = false) := by
  refine ⟨?_, ?_, ?_, ?_, ?_, ?_, ?_, ?_, ?_, ?_, ?_⟩ <;>
    exact writesOne_recorder _ _ _ _ rfl

/-- Claim C9 (`BadRequest` sends 502): for all arguments `BadRequest` makes one
sink call, with status 502 and an envelope of code 502, `Success = false`, the
resolved message and the given error and data; no call it makes has status 400;
on a fresh gin writer the status written is 502. -/
theorem BadRequest_writes_502 {α : Type} (enc : α → Option JValue)
    (log : List (SinkCall α)) (message : String) (error data : Option α) :
    BadRequest recorder log message error data
        = log ++ [{ status := 502,
                    obj := { Code := 502, Success := false, Message := msg message 502,
                             Error := error, Data := data } }]
      ∧ (∀ w ∈ BadRequest recorder ([] : List (SinkCall α)) message error data,
          w.status ≠ 400)
      ∧ (BadRequest (ginSink enc) freshWriter message error data).status = 502 := by
  refine ⟨rfl, ?_, ?_⟩
  · intro w hw
    simp [BadRequest, recorder] at hw
    subst hw
    simp [StatusBadGateway]
  · simp only [BadRequest, ginSink, Render, bodyAllowedForStatus, StatusBadGateway,
      StatusNoContent, StatusNotModified]
    simp only [show ¬((100 : Int) ≤ 502 ∧ (502 : Int) ≤ 199) by decide,
      show ¬((502 : Int) = 204) by decide, show ¬((502 : Int) = 304) by decide, if_false,
      if_true]
    split <;>
      simp [freshWriter, ResponseWriter.WriteHeader, ResponseWriter.Write,
        ResponseWriter.WriteHeaderNow, StatusOK]

/-! ## Constructors `Ok` and `Err` -/

/-- Claim C4 (message-default policy): for every code `c`, `Ok c ""` and
`Err c ""` carry the reason phrase `StatusText c` (404 gives "Not Found", a
code outside the table such as 299 gives the empty string); for every
non-empty `m` the message is `m` itself; and `NotFound(sink, "", nil)` writes
status 404 with the message "Not Found". -/
theorem message_default_policy {α : Type} (c : Int) (m : String) (hm : m ≠ "") :
    (Ok c "" : Response α).Message = StatusText c
      ∧ (Err c "" : Response α).Message = StatusText c
      ∧ StatusText 404 = "Not Found"
      ∧ StatusText 299 = ""
      ∧ (Ok c m : Response α).Message = m
      ∧ (Err c m : Response α).Message = m
      ∧ NotFound recorder ([] : List (SinkCall α)) "" none
          = [{ status := 404,
               obj := { Code := 404, Success := false, Message := "Not Found",
                        Error := none, Data := none } }] := by
  refine ⟨?_, ?_, by decide, by decide, ?_, ?_, ?_⟩
  · simp [Ok_eq, msg_empty]
  · simp [Err_eq, msg_empty]
  · simp [Ok_eq, msg_of_ne_empty m c hm]
  · simp [Err_eq, msg_of_ne_empty m c hm]
  · have h : StatusText 404 = "Not Found" := by decide
    simp [NotFound, recorder, Err_eq, Response.WithData, msg_empty, StatusNotFound, h]

/-- Witness of `message_default_policy` at code 404 and message "gone". -/
theorem message_default_policy_witness :
    "gone" ≠ ""
      ∧ (Ok 404 "" : Response String).Message = StatusText 404
      ∧ (Err 404 "" : Response String).Message = StatusText 404
      ∧ StatusText 404 = "Not Found"
      ∧ StatusText 299 = ""
      ∧ (Ok 404 "gone" : Response String).Message = "gone"
      ∧ (Err 404 "gone" : Response String).Message = "gone"
      ∧ NotFound recorder ([] : List (SinkCall String)) "" none
          = [{ status := 404,
               obj := { Code := 404, Success := false, Message := "Not Found",
                        Error := none, Data := none } }] :=
  ⟨by decide, message_default_policy 404 "gone" (by decide)⟩

/-- Claim C5 (`Ok` with a message): for every code `c` and non-empty message
`m`, `Ok c m` is the envelope with `Code = c`, `Success = true`,
`Message = m` and with `Error` and `Data` unset. -/
theorem Ok_of_nonempty_message {α : Type} (c : Int) (m : String) (hm : m ≠ "") :
    (Ok c m : Response α)
      = { Code := c, Success := true, Message := m, Error := none, Data := none } := by
  rw [Ok_eq, msg_of_ne_empty m c hm]

/-- Witness of `Ok_of_nonempty_message` at code 418 and message "short and stout". -/
theorem Ok_of_nonempty_message_witness :
    "short and stout" ≠ ""
      ∧ (Ok 418 "short and stout" : Response String)
          = { Code := 418, Success := true, Message := "short and stout",
              Error := none, Data := none } :=
  ⟨by decide, Ok_of_nonempty_message 418 "short and stout" (by decide)⟩

/-- Claim C6 (`Err` mirrors `Ok`): for every code `c` and every message `m`,
empty or not, `Err c m` is `Ok c m` with `Success` set to false: same code,
same resolved message, `Error` and `Data` unset. -/
theorem Err_eq_Ok_except_success {α : Type} (c : Int) (m : String) :
    (Err c m : Response α) = { (Ok c m : Response α) with Success := false }
      ∧ (Err c m : Response α).Success = false
      ∧ (Ok c m : Response α).Success = true
      ∧ (Err c m : Response α).Code = (Ok c m : Response α).Code
      ∧ (Err c m : Response α).Code = c
      ∧ (Err c m : Response α).Message = (Ok c m : Response α).Message
      ∧ (Err c m : Response α).Message = msg m c
      ∧ (Err c m : Response α).Error = none
      ∧ (Err c m : Response α).Data = none
      ∧ (Ok c m : Response α).Error = none
      ∧ (Ok c m : Response α).Data = none :=
  ⟨rfl, rfl, rfl, rfl, rfl, rfl, rfl, rfl, rfl, rfl, rfl⟩

/-! ## Builder setters -/

/-- Claim C10 (setters): each of `WithCode`, `WithSuccess`, `WithMessage`,
`WithData`, `WithError` is defined on every envelope and argument, returns the
envelope with exactly its own field replaced by the argument and the four
other fields as they were, `WithMessage ""` leaves the message empty, and
setters of different fields commute. -/
theorem setters_overwrite_one_field {α : Type} (r : Response α) (code : Int)
    (success : Bool) (message : String) (data error : Option α) :
    r.WithCode code
        = { Code := code, Success := r.Success, Message := r.Message,
            Error := r.Error, Data := r.Data }
      ∧ r.WithSuccess success
        = { Code := r.Code, Success := success, Message := r.Message,
            Error := r.Error, Data := r.Data }
      ∧ r.WithMessage message
        = { Code := r.Code, Success := r.Success, Message := message,
            Error := r.Error, Data := r.Data }
      ∧ r.WithData data
        = { Code := r.Code, Success := r.Success, Message := r.Message,
            Error := r.Error, Data := data }
      ∧ r.WithError error
        = { Code := r.Code, Success := r.Success, Message := r.Message,
            Error := error, Data := r.Data }
      ∧ (r.WithMessage "").Message = ""
      ∧ (r.WithCode code).WithSuccess success = (r.WithSuccess success).WithCode code
      ∧ (r.WithCode code).WithMessage message = (r.WithMessage message).WithCode code
      ∧ (r.WithCode code).WithData data = (r.WithData data).WithCode code
      ∧ (r.WithCode code).WithError error = (r.WithError error).WithCode code
      ∧ (r.WithSuccess success).WithMessage message
        = (r.WithMessage message).WithSuccess success
      ∧ (r.WithSuccess success).WithData data = (r.WithData data).WithSuccess success
      ∧ (r.WithSuccess success).WithError error = (r.WithError error).WithSuccess success
      ∧ (r.WithMessage message).WithData data = (r.WithData data).WithMessage message
      ∧ (r.WithMessage message).WithError error = (r.WithError error).WithMessage message
      ∧ (r.WithData data).WithError error = (r.WithError error).WithData data :=
  ⟨rfl, rfl, rfl, rfl, rfl, rfl, rfl, rfl, rfl, rfl, rfl, rfl, rfl, rfl, rfl, rfl⟩

/-! ## Serialised envelope -/

theorem omitempty_of_encodes {α : Type} (enc : α → Option JValue) (key : String)
    (v : Option α) (h : ∀ p, v = some p → enc p ≠ none) :
    ∃ ms, omitempty enc key v = some ms
      ∧ (∀ k x, (k, x) ∈ ms ↔ k = key ∧ ∃ p, v = some p ∧ enc p = some x)
      ∧ ms.map Prod.fst = if v.isSome then [key] else [] := by
  cases v with
  | none => exact ⟨[], rfl, by simp, rfl⟩
  | some p =>
    cases hp : enc p with
    | none => exact absurd hp (h p rfl)
    | some j =>
      refine ⟨[(key, j)], by simp [omitempty, hp], ?_, by simp⟩
      intro k x
      simp only [List.mem_singleton, Prod.mk.injEq, Option.some.injEq]
      constructor
      · rintro ⟨hk, hx⟩
        exact ⟨hk, p, rfl, by rw [hp, hx]⟩
      · rintro ⟨hk, q, hq, hx⟩
        subst hq
        rw [hp] at hx
        exact ⟨hk, (Option.some.inj hx).symm⟩

/-- Claim C7 as stated fails for a nil pointer: `Success(c, "done", p)` with
`p` a nil pointer passes an envelope whose `Data` is a non-nil interface, and
its serialisation has the member `data` with value null. -/
theorem Success_nil_pointer_data_emits_null :
    Success recorder ([] : List (SinkCall GoValue)) "done" (some GoValue.nilPointer)
        = [{ status := 200,
             obj := { Code := 200, Success := true, Message := "done",
                      Error := none, Data := some GoValue.nilPointer } }]
      ∧ Marshal encodeValue
          ({ Code := 200, Success := true, Message := "done",
             Error := none, Data := some GoValue.nilPointer } : Response GoValue)
          = some [("code", JValue.num 200), ("success", JValue.bool true),
                  ("message", JValue.str "done"), ("data", JValue.null)] := by
  refine ⟨?_, rfl⟩
  simp [Success, recorder, Ok_eq, Response.WithData, msg, StatusOK]

/-- Claim C7, amended: for every envelope whose payloads have an encoding,
marshalling returns an object in which the member `data` occurs exactly when
`Data` is a non-nil interface, and then with the encoding of the value it
holds; with `Data` the nil interface there is no `data` member at all; the
same holds for `error` and `Error`; the members `code`, `success` and
`message` are always present with the values of their fields; and the members
come in the order code, success, message, error, data. -/
theorem Marshal_optional_keys {α : Type} (enc : α → Option JValue) (r : Response α)
    (hE : ∀ v, r.Error = some v → enc v ≠ none)
    (hD : ∀ v, r.Data = some v → enc v ≠ none) :
    ∃ doc, Marshal enc r = some doc
      ∧ (∀ x, ("data", x) ∈ doc ↔ ∃ v, r.Data = some v ∧ enc v = some x)
      ∧ (∀ x, ("error", x) ∈ doc ↔ ∃ v, r.Error = some v ∧ enc v = some x)
      ∧ (r.Data = none ↔ ∀ x, ("data", x) ∉ doc)
      ∧ (r.Error = none ↔ ∀ x, ("error", x) ∉ doc)
      ∧ (∀ x, ("code", x) ∈ doc ↔ x = JValue.num r.Code)
      ∧ (∀ x, ("success", x) ∈ doc ↔ x = JValue.bool r.Success)
      ∧ (∀ x, ("message", x) ∈ doc ↔ x = JValue.str r.Message)
      ∧ doc.map Prod.fst
          = ["code", "success", "message"]
            ++ (if r.Error.isSome then ["error"] else [])
            ++ (if r.Data.isSome then ["data"] else []) := by
  obtain ⟨e, he, hem, hek⟩ := omitempty_of_encodes enc "error" r.Error hE
  obtain ⟨d, hd, hdm, hdk⟩ := omitempty_of_encodes enc "data" r.Data hD
  have hdata : ∀ x, ("data", x) ∈
      [("code", JValue.num r.Code), ("success", JValue.bool r.Success),
        ("message", JValue.str r.Message)] ++ e ++ d
        ↔ ∃ v, r.Data = some v ∧ enc v = some x := by
    intro x
    simp [hem, hdm]
  have herror : ∀ x, ("error", x) ∈
      [("code", JValue.num r.Code), ("success", JValue.bool r.Success),
        ("message", JValue.str r.Message)] ++ e ++ d
        ↔ ∃ v, r.Error = some v ∧ enc v = some x := by
    intro x
    simp [hem, hdm]
  refine ⟨_, by simp only [Marshal, he, hd], hdata, herror, ?_, ?_, ?_, ?_, ?_, ?_⟩
  · constructor
    · intro h x hx
      obtain ⟨v, hv, _⟩ := (hdata x).1 hx
      rw [h] at hv
      cases hv
    · intro h
      cases hv : r.Data with
      | none => rfl
      | some v =>
        cases hj : enc v with
        | none => exact absurd hj (hD v hv)
        | some j => exact absurd ((hdata j).2 ⟨v, hv, hj⟩) (h j)
  · constructor
    · intro h x hx
      obtain ⟨v, hv, _⟩ := (herror x).1 hx
      rw [h] at hv
      cases hv
    · intro h
      cases hv : r.Error with
      | none => rfl
      | some v =>
        cases hj : enc v with
        | none => exact absurd hj (hE v hv)
        | some j => exact absurd ((herror j).2 ⟨v, hv, hj⟩) (h j)
  · intro x
    simp [hem, hdm, eq_comm]
  · intro x
    simp [hem, hdm, eq_comm]
  · intro x
    simp [hem, hdm, eq_comm]
  · simp [hek, hdk]

/-- Witness of `Marshal_optional_keys` at the envelope with a nil slice as
error and the empty string as data, both of which are emitted. -/
theorem Marshal_optional_keys_witness :
    (∀ v, ((New.WithError (some GoValue.nilSlice)).WithData
        (some (GoValue.string ""))).Error = some v → encodeValue v ≠ none)
      ∧ (∀ v, ((New.WithError (some GoValue.nilSlice)).WithData
        (some (GoValue.string ""))).Data = some v → encodeValue v ≠ none)
      ∧ ∃ doc, Marshal encodeValue
            ((New.WithError (some GoValue.nilSlice)).WithData (some (GoValue.string "")))
            = some doc
          ∧ (∀ x, ("data", x) ∈ doc ↔
              ∃ v, ((New.WithError (some GoValue.nilSlice)).WithData
                (some (GoValue.string ""))).Data = some v ∧ encodeValue v = some x)
          ∧ (∀ x, ("error", x) ∈ doc ↔
              ∃ v, ((New.WithError (some GoValue.nilSlice)).WithData
                (some (GoValue.string ""))).Error = some v ∧ encodeValue v = some x)
          ∧ (((New.WithError (some GoValue.nilSlice)).WithData
                (some (GoValue.string ""))).Data = none ↔ ∀ x, ("data", x) ∉ doc)
          ∧ (((New.WithError (some GoValue.nilSlice)).WithData
                (some (GoValue.string ""))).Error = none ↔ ∀ x, ("error", x) ∉ doc)
          ∧ (∀ x, ("code", x) ∈ doc ↔ x = JValue.num 200)
          ∧ (∀ x, ("success", x) ∈ doc ↔ x = JValue.bool true)
          ∧ (∀ x, ("message", x) ∈ doc ↔ x = JValue.str "OK")
          ∧ doc.map Prod.fst = ["code", "success", "message"] ++ ["error"] ++ ["data"] :=
  have hE : ∀ v, ((New.WithError (some GoValue.nilSlice)).WithData
      (some (GoValue.string ""))).Error = some v → encodeValue v ≠ none := by
    intro v hv
    cases hv
    simp [encodeValue]
  have hD : ∀ v, ((New.WithError (some GoValue.nilSlice)).WithData
      (some (GoValue.string ""))).Data = some v → encodeValue v ≠ none := by
    intro v hv
    cases hv
    simp [encodeValue]
  ⟨hE, hD, Marshal_optional_keys encodeValue _ hE hD⟩

/-! ## `NoContent` and the body of a 204 response -/

/-- On the gin sink a helper whose status allows a body appends the serialised
envelope to the body: when the envelope marshals to `doc`, `Success` on a
fresh writer gives status 200 and the one document `doc`. -/
theorem Success_gin_writes_body {α : Type} (enc : α → Option JValue) (message : String)
    (data : Option α) (doc : JObject)
    (h : Marshal enc ((Ok StatusOK message : Response α).WithData data) = some doc) :
    (Success (ginSink enc) freshWriter message data).status = 200
      ∧ (Success (ginSink enc) freshWriter message data).body = [doc] := by
  simp only [Success, ginSink, Render, h]
  simp [bodyAllowedForStatus, freshWriter, ResponseWriter.WriteHeader, ResponseWriter.Write,
    ResponseWriter.WriteHeaderNow, StatusNoContent, StatusNotModified, StatusOK]

/-- Claim C8 as stated fails on gin: `NoContent(c, "done")` on a fresh writer
sets status 204 and writes the header, but the body stays empty, so it is not
the serialised envelope. -/
theorem NoContent_gin_body_empty :
    (NoContent (ginSink encodeValue) freshWriter "done").status = 204
      ∧ (NoContent (ginSink encodeValue) freshWriter "done").written = true
      ∧ (NoContent (ginSink encodeValue) freshWriter "done").body = []
      ∧ (NoContent (ginSink encodeValue) freshWriter "done").body
          ≠ [[("code", JValue.num 204), ("success", JValue.bool true),
              ("message", JValue.str "done")]] := by
  simp [NoContent, ginSink, Render, bodyAllowedForStatus, freshWriter,
    ResponseWriter.WriteHeader, ResponseWriter.WriteHeaderNow, StatusNoContent, StatusOK]

/-- Claim C8, amended: for every non-empty message `m`, `NoContent` makes one
sink call, with status 204 and the envelope of code 204, `Success = true`,
message `m` and no data or error, which serialises to the three members code,
success and message; the gin sink sets status 204 and adds nothing to the
body. -/
theorem NoContent_passes_envelope_without_body {α : Type} (enc : α → Option JValue)
    (m : String) (hm : m ≠ "") (log : List (SinkCall α)) (w : ResponseWriter) :
    NoContent recorder log m
        = log ++ [{ status := 204,
                    obj := { Code := 204, Success := true, Message := m,
                             Error := none, Data := none } }]
      ∧ Marshal enc (Ok StatusNoContent m : Response α)
          = some [("code", JValue.num 204), ("success", JValue.bool true),
                  ("message", JValue.str m)]
      ∧ (NoContent (ginSink enc) w m).body = w.body
      ∧ (NoContent (ginSink enc) freshWriter m).status = 204 := by
  refine ⟨?_, ?_, ?_, ?_⟩
  · simp [NoContent, recorder, Ok_eq, msg_of_ne_empty m _ hm, StatusNoContent]
  · simp [Marshal, omitempty, Ok_eq, msg_of_ne_empty m _ hm, StatusNoContent]
  · simp [NoContent, ginSink, Render, bodyAllowedForStatus, ResponseWriter.WriteHeaderNow,
      ResponseWriter.WriteHeader, StatusNoContent]
    split
    · rfl
    · split <;> rfl
  · simp [NoContent, ginSink, Render, bodyAllowedForStatus, freshWriter,
      ResponseWriter.WriteHeader, ResponseWriter.WriteHeaderNow, StatusNoContent, StatusOK]

/-- Witness of `NoContent_passes_envelope_without_body` at the message "done". -/
theorem NoContent_passes_envelope_without_body_witness :
    "done" ≠ ""
      ∧ NoContent recorder ([] : List (SinkCall GoValue)) "done"
          = [] ++ [{ status := 204,
                     obj := { Code := 204, Success := true, Message := "done",
                              Error := none, Data := none } }]
      ∧ Marshal encodeValue (Ok StatusNoContent "done" : Response GoValue)
          = some [("code", JValue.num 204), ("success", JValue.bool true),
                  ("message", JValue.str "done")]
      ∧ (NoContent (ginSink encodeValue) freshWriter "done").body = freshWriter.body
      ∧ (NoContent (ginSink encodeValue) freshWriter "done").status = 204 :=
  ⟨by decide,
    NoContent_passes_envelope_without_body encodeValue "done" (by decide) [] freshWriter⟩

end response
